import Mathlib

/-!
Verification of the research-helper faculty-scraper scripts.

This file gives a shallow embedding, in Lean 4, of the pure decision logic of
the two main scripts of the repository (the integrated faculty scraper and the
outreach-draft generator) together with the paper-ranking helper of the
Google-Scholar API test script, and proves the behavioural claims C1-C10
about them.

Modelling conventions:
* Python strings are Lean Strings; character-level work is done on List Char
  (the data of the string).  Python str.lower, str.strip, str.split and the
  substring operator are reimplemented character by character (PyStr below).
* External library calls (HTTP, json.loads of an arbitrary document, the
  language-model API) are pure inputs: an HTTP exchange is a value of an
  outcome type, and a JSON parse of a model response is an oracle function
  String to Option payload.  The scripts treat these libraries as
  deterministic black boxes, so every claim about the surrounding logic is
  expressed relative to these inputs.
* Python sorted / list.sort is a stable sort; it is embedded as
  List.insertionSort with the corresponding descending relation, which
  implements exactly the stable descending sort.
* Fractional scores (draft generator) are modelled with exact rational
  arithmetic in place of Python floats.
-/

namespace PyStr

/-- Whitespace characters recognised by Python str.strip and str.split
(ASCII subset, which is all the scripts ever meet). -/
def pyWhitespace (c : Char) : Bool :=
  c == ' ' || c == '\t' || c == '\n' || c == '\r' || c == '\x0b' || c == '\x0c'

/-- Python str.lower on the character list of a string. -/
def lowerL (s : List Char) : List Char := s.map Char.toLower

/-- Drop trailing whitespace. -/
def stripEnd (s : List Char) : List Char := (s.reverse.dropWhile pyWhitespace).reverse

/-- Python str.strip: drop leading and trailing whitespace. -/
def stripL (s : List Char) : List Char := stripEnd (s.dropWhile pyWhitespace)

/-- Helper of splitWs: acc holds the current word reversed. -/
def splitWsAux : List Char → List Char → List (List Char)
  | acc, [] => if acc.isEmpty then [] else [acc.reverse]
  | acc, c :: cs =>
    if pyWhitespace c then
      if acc.isEmpty then splitWsAux [] cs else acc.reverse :: splitWsAux [] cs
    else splitWsAux (c :: acc) cs

/-- Python str.split() with no argument: split on whitespace runs,
dropping empty chunks. -/
def splitWs (s : List Char) : List (List Char) := splitWsAux [] s

/-- The Python substring operator (needle in haystack). -/
def pyIn (needle : List Char) : List Char → Bool
  | [] => needle.isEmpty
  | c :: tail => needle.isPrefixOf (c :: tail) || pyIn needle tail

/-- Python str.count: number of non-overlapping occurrences of pat,
scanning from the left (pat assumed non-empty, as all keywords are). -/
def countOccs (pat : List Char) : List Char → Nat
  | [] => 0
  | c :: rest =>
    if !pat.isEmpty && pat.isPrefixOf (c :: rest) then
      countOccs pat (rest.drop (pat.length - 1)) + 1
    else
      countOccs pat rest
termination_by l => l.length
decreasing_by
  · simp only [List.length_drop, List.length_cons]
    omega
  · simp only [List.length_cons]
    omega

end PyStr

/-- Python str.strip as a String-level function. -/
def pyStripStr (s : String) : String := String.mk (PyStr.stripL s.toList)

namespace Scraper

/-- Administrative local-part patterns rejected by is_faculty_email
(source: skip_patterns in faculty-scraper-proto.py). -/
def skip_patterns : List (List Char) :=
  ["info@".toList, "contact@".toList, "admin@".toList, "webmaster@".toList,
   "support@".toList, "help@".toList, "noreply@".toList, "no-reply@".toList,
   "postmaster@".toList, "admissions@".toList, "registrar@".toList,
   "bursar@".toList, "communications@".toList, "marketing@".toList,
   "events@".toList, "news@".toList, "media@".toList, "press@".toList,
   "alumni@".toList]

/-- Generic keywords rejected anywhere in the lower-cased address
(source: generic_keywords in is_faculty_email). -/
def generic_keywords : List (List Char) :=
  ["mailing".toList, "list".toList, "newsletter".toList, "announcements".toList,
   "updates".toList, "department".toList, "office".toList, "committee".toList,
   "board".toList, "council".toList]

/-- Embedding of is_faculty_email (faculty-scraper-proto.py lines 185-211):
lower-case the address, reject when it starts with an administrative pattern,
then reject when it contains a generic keyword anywhere, else accept. -/
def faculty_email_chars (email : List Char) : Bool :=
  let email_lower := PyStr.lowerL email
  if skip_patterns.any (fun p => p.isPrefixOf email_lower) then false
  else if generic_keywords.any (fun k => PyStr.pyIn k email_lower) then false
  else true

/-- String-level wrapper keeping the source name. -/
def is_faculty_email (email : String) : Bool := faculty_email_chars email.toList

/-- Denylist of generic phrases that disqualify a candidate professor name
(source: generic_terms in is_valid_professor_name). -/
def generic_terms : List (List Char) :=
  ["artificial intelligence".toList, "machine learning".toList,
   "computer science".toList, "programming languages".toList,
   "software engineering".toList, "data science".toList,
   "information science".toList, "computer systems".toList,
   "algorithms".toList, "theoretical computer science".toList,
   "human computer interaction".toList, "computer graphics".toList,
   "computer vision".toList, "robotics".toList, "cybersecurity".toList,
   "networks".toList, "databases".toList, "quantum computing".toList,
   "integrated circuits".toList, "game theory".toList,
   "computational fabrication".toList, "medical devices".toList,
   "quantum materials".toList, "eng thesis".toList, "interim vice".toList,
   "schwarzman college".toList, "sibley webster".toList,
   "ellen swallow".toList, "norbert wiener".toList]

/-- Try to match one literal title followed by mandatory whitespace at the
start of the name; on success return the remainder with the whitespace run
consumed (the regex sub removes the whole greedy match). -/
def dropTitle (t : List Char) (name : List Char) : Option (List Char) :=
  if t.isPrefixOf name then
    match name.drop t.length with
    | [] => none
    | c :: rest =>
      if PyStr.pyWhitespace c then some ((c :: rest).dropWhile PyStr.pyWhitespace)
      else none
  else none

/-- Embedding of re.sub applied to the title pattern anchored at the start:
the alternation tries Professor, then Prof, then Dr with a dot, then Dr,
each of which must be followed by at least one whitespace character. -/
def stripLeadingTitle (name : List Char) : List Char :=
  match dropTitle "Professor".toList name with
  | some r => r
  | none =>
    match dropTitle "Prof".toList name with
    | some r => r
    | none =>
      match dropTitle "Dr.".toList name with
      | some r => r
      | none =>
        match dropTitle "Dr".toList name with
        | some r => r
        | none => name

def isAsciiUpper (c : Char) : Bool := decide ('A' ≤ c) && decide (c ≤ 'Z')

def isAsciiAlpha (c : Char) : Bool :=
  (decide ('A' ≤ c) && decide (c ≤ 'Z')) || (decide ('a' ≤ c) && decide (c ≤ 'z'))

/-- A word starting with a capital whose remaining characters are letters or
an apostrophe (the anchored name-word regex of the validator). -/
def isNameWord (w : List Char) : Bool :=
  match w with
  | [] => false
  | c :: rest => isAsciiUpper c && rest.all (fun d => isAsciiAlpha d || d == '\'')

/-- A word whose first character is an upper-case letter. -/
def startsWithUpper (w : List Char) : Bool :=
  match w with
  | [] => false
  | c :: _ => isAsciiUpper c

/-- Embedding of is_valid_professor_name (faculty-scraper-proto.py
lines 548-589): reject short input, strip one leading title, require at
least two words, reject denylisted phrases in the lower-cased cleaned name,
and require the first two words to look like capitalised name words. -/
def valid_professor_name_chars (name : List Char) : Bool :=
  if name.isEmpty || name.length < 3 then false
  else
    let clean_name := PyStr.stripL (stripLeadingTitle name)
    let words := PyStr.splitWs clean_name
    if words.length < 2 then false
    else
      let name_lower := PyStr.lowerL clean_name
      if generic_terms.any (fun t => PyStr.pyIn t name_lower) then false
      else (words.take 2).all (fun w => 2 ≤ w.length && isNameWord w)

/-- String-level wrapper keeping the source name. -/
def is_valid_professor_name (name : String) : Bool :=
  valid_professor_name_chars name.toList

/-- One entry of the JSON array requested from the language model by the
name-pairing assistant; every field may be missing. -/
structure AiPairEntry where
  email : Option String
  name : Option String
  confidence : Option String
deriving DecidableEq

/-- A validated faculty candidate produced by the pairing assistant. -/
structure FacultyInfo where
  name : String
  email : String
  source : String
  confidence : String
deriving DecidableEq

/-- Validation and filtering of the parsed model response
(faculty-scraper-proto.py lines 268-288): keep an entry when its stripped
email and name are non-empty, the name passes the validator and the email
is one of the originally harvested addresses. -/
def filter_ai_entries (entries : List AiPairEntry) (emails : List String) :
    List FacultyInfo :=
  entries.filterMap (fun entry =>
    let email := pyStripStr (entry.email.getD "")
    let name := pyStripStr (entry.name.getD "")
    let confidence := entry.confidence.getD "medium"
    if (email != "") && (name != "") && is_valid_professor_name name
        && emails.contains email then
      some { name := name, email := email, source := "ai_page_analysis",
             confidence := confidence }
    else none)

/-- Embedding of extract_email_name_pairs_with_ai (faculty-scraper-proto.py
lines 213-296): jsonParse is the oracle for json.loads on the model
response; a parse failure (none) is caught and yields the empty list with
no further recovery attempt. -/
def extract_email_name_pairs_with_ai
    (jsonParse : String → Option (List AiPairEntry))
    (response : String) (emails : List String) : List FacultyInfo :=
  match jsonParse response with
  | some result => filter_ai_entries result emails
  | none => []

/-- Longest prefix of s that ends with the character c (the greedy dot-star
of the bracket-recovery regex under DOTALL); none when c does not occur. -/
def takeThroughLast (c : Char) (s : List Char) : Option (List Char) :=
  let r := (s.reverse.dropWhile (fun d => d != c)).reverse
  if r.isEmpty then none else some r

/-- Embedding of re.search applied to the bracket-recovery pattern (an
alternation of a square-bracketed and a curly-bracketed greedy group,
DOTALL): the match starts at the first opening bracket that has a matching
closing character somewhere after it and extends to the last such closer. -/
def bracketSearch : List Char → Option (List Char)
  | [] => none
  | c :: rest =>
    if c == '[' then
      match takeThroughLast ']' rest with
      | some seg => some ('[' :: seg)
      | none => bracketSearch rest
    else if c == '\x7b' then
      match takeThroughLast '\x7d' rest with
      | some seg => some ('\x7b' :: seg)
      | none => bracketSearch rest
    else bracketSearch rest

/-- Embedding of the enhanced module-level extract_faculty_from_emails_with_ai
(faculty-scraper-proto.py lines 828-888): strip the response, reject empty
responses and responses that do not start with an opening bracket, try the
JSON parse, and on failure try once to parse the first bracketed substring. -/
def extract_faculty_from_emails_with_ai {α : Type}
    (jsonParse : String → Option (List α)) (content : String) : List α :=
  let ai_response := PyStr.stripL content.toList
  if ai_response.isEmpty then []
  else if !(ai_response.head? == some '[' || ai_response.head? == some '\x7b') then []
  else
    match jsonParse (String.mk ai_response) with
    | some faculty_data => faculty_data
    | none =>
      match bracketSearch ai_response with
      | some seg =>
        match jsonParse (String.mk seg) with
        | some faculty_data => faculty_data
        | none => []
      | none => []

/-- One organic result of the literature-search API response; every field the
code reads is optional.  cited_by_total stands for the nested
inline_links.cited_by.total chain: it is none when any level of the chain is
missing, matching the guarded access of the source. -/
structure OrganicResult where
  title : Option String
  summary : Option String
  snippet : Option String
  cited_by_total : Option Int
  link : Option String
  result_id : Option String
deriving DecidableEq

/-- A paper record as built by the integrated scraper (no rank field). -/
structure Paper where
  title : String
  authors : String
  publication_info : String
  snippet : String
  cited_by : Int
  link : String
deriving DecidableEq

/-- Field extraction per organic result (faculty-scraper-proto.py
lines 636-651): string fields default to N/A, the citation count to 0. -/
def mkPaper (r : OrganicResult) : Paper :=
  { title := r.title.getD "N/A"
    authors := r.summary.getD "N/A"
    publication_info := r.summary.getD "N/A"
    snippet := r.snippet.getD "N/A"
    cited_by := r.cited_by_total.getD 0
    link := r.link.getD "N/A" }

/-- The parsed JSON body of a literature-search response: a possible error
field and a possible organic_results array. -/
structure ApiResponse where
  error_field : Option String
  organic_results : Option (List OrganicResult)
deriving DecidableEq

/-- Outcome of the one HTTP GET of the publication lookup.  The first three
constructors are the exceptions the source catches (requests.Timeout, the
ConnectionError subclass, any other RequestException); success carries the
status code, the raw text and the parsed JSON body. -/
inductive HttpResult where
  | timeout
  | connection_error (msg : String)
  | request_exception (msg : String)
  | success (status_code : Nat) (text : String) (body : ApiResponse)
deriving DecidableEq

/-- Result of the publication lookup: a tagged error payload or the top
papers with the total number found.  The embedded function is total, matching
the source, which converts every error condition into an error dictionary
instead of raising. -/
inductive PapersOutcome where
  | error (msg : String)
  | found (papers : List Paper) (total_papers_found : Nat)
deriving DecidableEq

/-- Descending-by-citation-count ordering used by the stable sort. -/
def byCited (a b : Paper) : Prop := b.cited_by ≤ a.cited_by

instance : DecidableRel byCited :=
  fun a b => inferInstanceAs (Decidable (b.cited_by ≤ a.cited_by))

/-- Embedding of get_professor_papers_direct_search of the integrated scraper
(faculty-scraper-proto.py lines 591-669): missing key, timeout, request
exception, non-200 status, API error field and empty result list each give a
tagged error; otherwise the extracted papers are sorted stably by descending
citation count and the top 5 are returned. -/
def get_professor_papers_direct_search (serpapi_key : Option String)
    (prof_name prof_email : String) (http : HttpResult) : PapersOutcome :=
  match serpapi_key with
  | none => .error "SERPAPI_API_KEY not found in environment variables"
  | some _ =>
    match http with
    | .timeout => .error "Request timed out"
    | .connection_error msg => .error ("Request failed: " ++ msg)
    | .request_exception msg => .error ("Request failed: " ++ msg)
    | .success status text body =>
      if status ≠ 200 then
        .error ("HTTP " ++ toString status ++ ": " ++ text.take 200)
      else
        match body.error_field with
        | some e => .error ("API Error: " ++ e)
        | none =>
          match body.organic_results with
          | none => .error ("No papers found for " ++ prof_name)
          | some [] => .error ("No papers found for " ++ prof_name)
          | some results =>
            let papers := results.map mkPaper
            let papers_sorted := List.insertionSort byCited papers
            .found (papers_sorted.take 5) papers.length

/-- The subset of a persisted ProfessorRecord involved in the verified
claims; the remaining fields of the source dictionary (title, department,
research summary, provenance notes) are constants or copies of other inputs
and are omitted. -/
structure ProfessorRecord where
  name : String
  email : String
  profile_url : String
  top_papers : List Paper
  total_papers_found : Nat
  papers_error : Option String
deriving DecidableEq

/-- Record assembly in scrape_complete_faculty_data (faculty-scraper-proto.py
lines 786-812): top_papers defaults to the empty list and papers_error to
none, mirroring dict.get on the lookup result. -/
def build_professor_record (fi : FacultyInfo) (page_url : String)
    (papers_result : PapersOutcome) : ProfessorRecord :=
  { name := fi.name
    email := fi.email
    profile_url := page_url
    top_papers := match papers_result with | .found ps _ => ps | .error _ => []
    total_papers_found := match papers_result with | .found _ n => n | .error _ => 0
    papers_error := match papers_result with | .error m => some m | .found _ _ => none }

/-- Decidable statement that every citation total present in a successful
response is non-negative (the API contract for cited_by.total). -/
def resultTotalsOk (r : OrganicResult) : Bool :=
  match r.cited_by_total with
  | none => true
  | some t => decide (0 ≤ t)

/-- resultTotalsOk over every organic result of an HTTP outcome. -/
def httpTotalsOk : HttpResult → Bool
  | .success _ _ body => (body.organic_results.getD []).all resultTotalsOk
  | _ => true

/-- One collected hyperlink of the faculty page, already absolutised
(urljoin is a pure library call). -/
structure RawLink where
  href : String
  text : String
  context : String
deriving DecidableEq

/-- Link collection of find_relevant_faculty_links (faculty-scraper-proto.py
lines 303-328): drop empty hrefs and already-visited URLs, truncate the
surrounding context to 200 characters. -/
def collect_links (visited : List String) (links : List RawLink) : List RawLink :=
  links.filterMap (fun l =>
    if (l.href != "") && !(visited.contains l.href) then
      some { l with context := l.context.take 200 }
    else none)

/-- The sample of links actually serialised into the model prompt
(all_links capped to the first 50). -/
def links_sample (visited : List String) (links : List RawLink) : List RawLink :=
  (collect_links visited links).take 50

def LINK_ANALYSIS_LIMIT : Nat := 10

/-- Embedding of find_relevant_faculty_links (faculty-scraper-proto.py
lines 298-403): aiParse is the oracle for json.loads on the model response
(none covers both a parse failure and an API exception); returned URLs are
kept when they are strings starting with http and not yet visited, and at
most LINK_ANALYSIS_LIMIT of them are returned. -/
def find_relevant_faculty_links (visited : List String) (links : List RawLink)
    (aiParse : Option (List String)) : List String :=
  let all_links := collect_links visited links
  if all_links.isEmpty then []
  else
    match aiParse with
    | none => []
    | some relevant_urls =>
      let valid_urls := relevant_urls.filter
        (fun u => "http".toList.isPrefixOf u.toList && !(visited.contains u))
      valid_urls.take LINK_ANALYSIS_LIMIT

/-- Step-2 selection of scrape_complete_faculty_data (faculty-scraper-proto.py
lines 748-751): the link-analysis fallback result is used only when the
direct extraction produced zero candidates. -/
def scrape_select (direct fallback : List FacultyInfo) : List FacultyInfo :=
  if direct.length = 0 then fallback else direct

/-- The key under which harvested emails are de-duplicated:
email.lower().strip(). -/
def emailKey (e : String) : String := String.mk (PyStr.stripL (PyStr.lowerL e.toList))

/-- De-duplication and filtering loop of find_all_faculty_emails_and_names
(faculty-scraper-proto.py lines 87-96): seen holds lower-cased stripped
keys; an email is kept when its key is new and passes is_faculty_email, and
the original spelling is appended. -/
def dedup_filter_go (seen : List String) : List String → List String
  | [] => []
  | e :: rest =>
    let el := emailKey e
    if !(seen.contains el) && is_faculty_email el then
      e :: dedup_filter_go (el :: seen) rest
    else dedup_filter_go seen rest

/-- One run of the de-duplication with a fresh local seen set. -/
def dedup_filter (emails : List String) : List String := dedup_filter_go [] emails

/-- Harvest-and-filter pipeline of find_all_faculty_emails_and_names
(faculty-scraper-proto.py lines 58-96).  The three regex harvests over the
page text and HTML are pure library calls (module re), so their match lists
are inputs here; obfuscated matches are rebuilt as user at domain dot edu
exactly as in the source. -/
def find_all_faculty_emails (page_emails mailto_emails : List String)
    (obfuscated : List (String × String)) : List String :=
  let all_emails := page_emails ++ mailto_emails
    ++ obfuscated.map (fun p => p.1 ++ "@" ++ p.2 ++ ".edu")
  dedup_filter all_emails

end Scraper

namespace ApiTest

open Scraper

/-- A paper record of the API-test variant of the lookup, which carries an
explicit 1-based rank. -/
structure RankedPaper where
  rank : Nat
  title : String
  authors : String
  publication_info : String
  snippet : String
  cited_by : Int
  link : String
  result_id : String
deriving DecidableEq

/-- Per-result extraction of the API-test lookup
(Serp-GScholar-API-test.py lines 89-107): position i gets rank i+1. -/
def mkRankedPaper (i : Nat) (r : OrganicResult) : RankedPaper :=
  { rank := i + 1
    title := r.title.getD "N/A"
    authors := r.summary.getD "N/A"
    publication_info := r.summary.getD "N/A"
    snippet := r.snippet.getD "N/A"
    cited_by := r.cited_by_total.getD 0
    link := r.link.getD "N/A"
    result_id := r.result_id.getD "N/A" }

/-- All papers extracted from the organic results, in response order. -/
def extractPapers (results : List OrganicResult) : List RankedPaper :=
  results.mapIdx mkRankedPaper

/-- Descending-by-citation-count ordering on ranked papers. -/
def byCitedR (a b : RankedPaper) : Prop := b.cited_by ≤ a.cited_by

instance : DecidableRel byCitedR :=
  fun a b => inferInstanceAs (Decidable (b.cited_by ≤ a.cited_by))

/-- The stable descending sort by citation count (Python sorted with
reverse=True on the cited_by key). -/
def sortByCitedDesc (papers : List RankedPaper) : List RankedPaper :=
  List.insertionSort byCitedR papers

/-- Ranking pipeline of the API-test lookup (Serp-GScholar-API-test.py
lines 109-115): stable descending sort, top 3, ranks reassigned 1.. after
sorting. -/
def rank_papers (results : List OrganicResult) : List RankedPaper :=
  ((sortByCitedDesc (extractPapers results)).take 3).mapIdx
    (fun i p => { p with rank := i + 1 })

/-- Rank-erasing projection used to compare paper content irrespective of
the rank field. -/
def eraseRank (p : RankedPaper) : RankedPaper := { p with rank := 0 }

/-- Three organic results whose citation counts are 5, 50 and 10, the
concrete instance of claim C1. -/
def exampleResults : List OrganicResult :=
  [{ title := some "A", summary := none, snippet := none,
     cited_by_total := some 5, link := none, result_id := none },
   { title := some "B", summary := none, snippet := none,
     cited_by_total := some 50, link := none, result_id := none },
   { title := some "C", summary := none, snippet := none,
     cited_by_total := some 10, link := none, result_id := none }]

end ApiTest

namespace DraftGen

open Scraper

/-- Keyword list of the best-paper selector (draft-generator.py
lines 99-105). -/
def relevant_keywords : List String :=
  ["housing", "urban", "neighborhood", "gentrification", "displacement",
   "real estate", "property", "economic", "finance", "financial",
   "prediction", "model", "risk", "community", "demographic",
   "spatial", "geographic", "policy", "development", "inequality",
   "machine learning", "data", "analysis", "forecasting"]

/-- Relevance score of a paper: non-overlapping occurrence counts of each
keyword in the lower-cased title and snippet joined by one space
(draft-generator.py lines 108-116). -/
def relevance_score (p : Paper) : Nat :=
  let title := PyStr.lowerL p.title.toList
  let snippet := PyStr.lowerL p.snippet.toList
  let combined_text := title ++ ' ' :: snippet
  (relevant_keywords.map
    (fun kw => PyStr.countOccs (PyStr.lowerL kw.toList) combined_text)).sum

/-- Total score: relevance times 10 plus citations over 100, in exact
rational arithmetic (the source computes the same expression in floats). -/
def total_score (p : Paper) : ℚ :=
  (relevance_score p : ℚ) * 10 + (p.cited_by : ℚ) / 100

/-- Descending-by-total-score ordering on papers. -/
def byScore (a b : Paper) : Prop := total_score b ≤ total_score a

instance : DecidableRel byScore :=
  fun a b => inferInstanceAs (Decidable (total_score b ≤ total_score a))

/-- Embedding of select_best_paper (draft-generator.py lines 91-130): none
for an empty list, otherwise the head of the stable descending sort of the
scored papers. -/
def select_best_paper : List Paper → Option Paper
  | [] => none
  | p :: rest => (List.insertionSort byScore (p :: rest)).head?

end DraftGen

namespace Fixtures

/-- A well-formed pairing entry used by concrete instances. -/
def entry0 : Scraper.AiPairEntry :=
  { email := some "a@b.edu", name := some "Jane Smith", confidence := some "high" }

/-- A parse oracle that succeeds only on the bracketed substring of the
C2 counterexample response. -/
def parse0 : String → Option (List Scraper.AiPairEntry) :=
  fun s => if s = "[x]" then some [entry0] else none

/-- A parse oracle over a plain payload that succeeds only on the first
bracketed substring of the C2 witness response. -/
def parse1 : String → Option (List Nat) :=
  fun s => if s = "[a]" then some [7] else none

/-- A pairing entry matching the harvested email of the C3 witness. -/
def entry3 : Scraper.AiPairEntry :=
  { email := some "jane.smith@uni.edu", name := some "Jane Smith",
    confidence := some "high" }

/-- A parse oracle that always returns the single C3 entry. -/
def parse3 : String → Option (List Scraper.AiPairEntry) := fun _ => some [entry3]

/-- An organic result whose citation chain is absent. -/
def result3 : Scraper.OrganicResult :=
  { title := some "T", summary := none, snippet := none, cited_by_total := none,
    link := none, result_id := none }

/-- A successful literature-search exchange carrying one result. -/
def http3 : Scraper.HttpResult :=
  .success 200 "" { error_field := none, organic_results := some [result3] }

/-- The validated candidate produced from entry3. -/
def fi3 : Scraper.FacultyInfo :=
  { name := "Jane Smith", email := "jane.smith@uni.edu",
    source := "ai_page_analysis", confidence := "high" }

/-- A candidate used by the C8 witness. -/
def fi8 : Scraper.FacultyInfo :=
  { name := "Jane Smith", email := "j@x.edu", source := "s", confidence := "high" }

/-- A collected hyperlink used by the C8 witness. -/
def link8 : Scraper.RawLink := { href := "http://b", text := "t", context := "c" }

/-- A paper with relevant keywords and few citations. -/
def paperA : Scraper.Paper :=
  { title := "Housing market analysis", authors := "A", publication_info := "A",
    snippet := "housing data", cited_by := 10, link := "l1" }

/-- A paper with no relevant keywords and many citations. -/
def paperB : Scraper.Paper :=
  { title := "Quantum gravity", authors := "B", publication_info := "B",
    snippet := "strings", cited_by := 500, link := "l2" }

end Fixtures

/-! Helper lemmas about the stable sort embedding and the string helpers. -/

section SortLemmas

variable {α : Type} {β : Type} [LinearOrder β]

/-- Filtering on one key value commutes with ordered insertion for a
descending-by-key relation: skipped elements have strictly larger keys. -/
theorem filter_stable_orderedInsert (r : α → α → Prop) [DecidableRel r]
    (key : α → β) (hr : ∀ a b, r a b ↔ key b ≤ key a)
    (pred : α → Bool) (c : β) (hpred : ∀ y, pred y = true ↔ key y = c)
    (x : α) (l : List α) :
    (List.orderedInsert r x l).filter pred =
      if key x = c then x :: l.filter pred else l.filter pred := by
  induction l with
  | nil =>
    simp only [List.orderedInsert, List.filter_cons, List.filter_nil]
    by_cases h : key x = c
    · rw [if_pos ((hpred x).mpr h), if_pos h]
    · rw [if_neg (fun hp => h ((hpred x).mp hp)), if_neg h]
  | cons y t ih =>
    simp only [List.orderedInsert]
    by_cases hxy : r x y
    · rw [if_pos hxy, List.filter_cons]
      by_cases h : key x = c
      · rw [if_pos ((hpred x).mpr h), if_pos h]
      · rw [if_neg (fun hp => h ((hpred x).mp hp)), if_neg h]
    · rw [if_neg hxy, List.filter_cons, List.filter_cons, ih]
      have hlt : key x < key y := not_le.mp (fun hle => hxy ((hr x y).mpr hle))
      by_cases h : key x = c
      · have hpy : ¬ (pred y = true) := fun hp => by
          rw [h, (hpred y).mp hp] at hlt
          exact lt_irrefl c hlt
        simp only [if_pos h, if_neg hpy]
      · simp only [if_neg h]

/-- Stability of the insertion sort: the sublist of elements carrying any
fixed key value is unchanged, so ties keep their original order. -/
theorem filter_stable_insertionSort (r : α → α → Prop) [DecidableRel r]
    (key : α → β) (hr : ∀ a b, r a b ↔ key b ≤ key a)
    (pred : α → Bool) (c : β) (hpred : ∀ y, pred y = true ↔ key y = c)
    (l : List α) :
    (List.insertionSort r l).filter pred = l.filter pred := by
  induction l with
  | nil => rfl
  | cons x t ih =>
    simp only [List.insertionSort]
    rw [filter_stable_orderedInsert r key hr pred c hpred x _, ih, List.filter_cons]
    by_cases h : key x = c
    · rw [if_pos h, if_pos ((hpred x).mpr h)]
    · rw [if_neg h, if_neg (fun hp => h ((hpred x).mp hp))]

/-- Ordered insertion preserves the pairwise descending-key property. -/
theorem pairwise_key_orderedInsert (r : α → α → Prop) [DecidableRel r]
    (key : α → β) (hr : ∀ a b, r a b ↔ key b ≤ key a) (x : α) :
    ∀ l : List α, List.Pairwise (fun a b => key b ≤ key a) l →
      List.Pairwise (fun a b => key b ≤ key a) (List.orderedInsert r x l) := by
  intro l
  induction l with
  | nil =>
    intro _
    simp [List.orderedInsert]
  | cons y t ih =>
    intro hp
    rw [List.pairwise_cons] at hp
    obtain ⟨hyt, hpt⟩ := hp
    simp only [List.orderedInsert]
    by_cases hxy : r x y
    · rw [if_pos hxy]
      refine List.pairwise_cons.mpr ⟨?_, List.pairwise_cons.mpr ⟨hyt, hpt⟩⟩
      intro b hb
      rcases List.mem_cons.mp hb with hb | hb
      · rw [hb]
        exact (hr x y).mp hxy
      · exact le_trans (hyt b hb) ((hr x y).mp hxy)
    · rw [if_neg hxy]
      have hlt : key x < key y := not_le.mp (fun hle => hxy ((hr x y).mpr hle))
      refine List.pairwise_cons.mpr ⟨?_, ih hpt⟩
      intro b hb
      have hb2 : b ∈ x :: t := (List.perm_orderedInsert r x t).mem_iff.mp hb
      rcases List.mem_cons.mp hb2 with hb2 | hb2
      · rw [hb2]
        exact le_of_lt hlt
      · exact hyt b hb2

/-- The insertion sort with a descending-by-key relation produces a list
that is pairwise descending in the key. -/
theorem pairwise_key_insertionSort (r : α → α → Prop) [DecidableRel r]
    (key : α → β) (hr : ∀ a b, r a b ↔ key b ≤ key a) (l : List α) :
    List.Pairwise (fun a b => key b ≤ key a) (List.insertionSort r l) := by
  induction l with
  | nil => exact List.Pairwise.nil
  | cons x t ih =>
    simp only [List.insertionSort]
    exact pairwise_key_orderedInsert r key hr x _ ih

/-- The head of the sorted list attains the maximal key value. -/
theorem insertionSort_head_max (r : α → α → Prop) [DecidableRel r]
    (key : α → β) (hr : ∀ a b, r a b ↔ key b ≤ key a)
    (l : List α) (hl : l ≠ []) :
    ∃ p t, List.insertionSort r l = p :: t ∧ ∀ q ∈ l, key q ≤ key p := by
  cases hs : List.insertionSort r l with
  | nil =>
    exfalso
    apply hl
    have hperm := List.perm_insertionSort r l
    rw [hs] at hperm
    exact hperm.symm.eq_nil
  | cons p t =>
    refine ⟨p, t, rfl, ?_⟩
    intro q hq
    have hq2 : q ∈ p :: t := by
      rw [← hs]
      exact (List.perm_insertionSort r l).mem_iff.mpr hq
    rcases List.mem_cons.mp hq2 with h | h
    · rw [h]
    · have hpw := pairwise_key_insertionSort r key hr l
      rw [hs, List.pairwise_cons] at hpw
      exact hpw.1 q h

end SortLemmas

section MapIdxLemmas

variable {α β γ : Type}

/-- Mapping a position-reading projection over mapIdx with a rank-assigning
function yields the contiguous range starting at s. -/
theorem mapIdx_map_ranks (l : List α) : ∀ (s : Nat) (f : Nat → α → β) (g : β → Nat),
    (∀ i a, g (f i a) = i + s) → (l.mapIdx f).map g = List.range' s l.length := by
  induction l with
  | nil =>
    intro s f g _
    simp
  | cons x xs ih =>
    intro s f g h
    rw [List.mapIdx_cons, List.map_cons, h 0 x, List.length_cons, List.range'_succ,
      ih (s + 1) _ g (fun i a => by rw [h]; omega)]
    simp

/-- Mapping a position-independent projection over mapIdx forgets the
index. -/
theorem map_mapIdx_indep (l : List α) : ∀ (f : Nat → α → β) (g : β → γ) (k : α → γ),
    (∀ i a, g (f i a) = k a) → (l.mapIdx f).map g = l.map k := by
  induction l with
  | nil =>
    intro f g k _
    simp
  | cons x xs ih =>
    intro f g k h
    simp only [List.mapIdx_cons, List.map_cons, h 0 x]
    rw [ih _ g k (fun i a => h (i + 1) a)]

end MapIdxLemmas

section StringLemmas

/-- A list is a Boolean prefix of itself followed by anything. -/
theorem isPrefixOf_append_self (p s : List Char) : p.isPrefixOf (p ++ s) = true := by
  induction p with
  | nil => simp [List.isPrefixOf]
  | cons c cs ih => simp [List.isPrefixOf, ih]

/-- Substring containment is preserved by prepending characters. -/
theorem pyIn_append_left (k t : List Char) (h : PyStr.pyIn k t = true) :
    ∀ s : List Char, PyStr.pyIn k (s ++ t) = true := by
  intro s
  induction s with
  | nil => simpa using h
  | cons c cs ih =>
    simp only [List.cons_append, PyStr.pyIn, Bool.or_eq_true]
    exact Or.inr ih

/-- Python lower distributes over list append. -/
theorem lowerL_append (s t : List Char) :
    PyStr.lowerL (s ++ t) = PyStr.lowerL s ++ PyStr.lowerL t :=
  List.map_append _ s t

end StringLemmas

section DedupLemmas

/-- Membership characterisation of the de-duplication loop: a key appears in
the output exactly when it is the key of some input email, passes the
faculty filter and is not in the inherited seen set. -/
theorem dedup_filter_go_key_mem (x : String) :
    ∀ (l seen : List String),
      x ∈ (Scraper.dedup_filter_go seen l).map Scraper.emailKey ↔
        (x ∈ (l.map Scraper.emailKey).filter Scraper.is_faculty_email ∧ x ∉ seen) := by
  intro l
  induction l with
  | nil =>
    intro seen
    simp [Scraper.dedup_filter_go]
  | cons e rest ih =>
    intro seen
    simp only [Scraper.dedup_filter_go]
    by_cases hc : (!(seen.contains (Scraper.emailKey e))
        && Scraper.is_faculty_email (Scraper.emailKey e)) = true
    · rw [if_pos hc]
      rw [Bool.and_eq_true, Bool.not_eq_true'] at hc
      obtain ⟨hseen, hfac⟩ := hc
      have hnot : Scraper.emailKey e ∉ seen := by
        intro hmem
        have h2 : seen.contains (Scraper.emailKey e) = true := List.elem_iff.mpr hmem
        rw [h2] at hseen
        exact absurd hseen (by decide)
      rw [List.map_cons, List.map_cons, List.filter_cons, if_pos hfac]
      constructor
      · intro hx
        rcases List.mem_cons.mp hx with hx | hx
        · subst hx
          exact ⟨List.mem_cons_self _ _, hnot⟩
        · have := (ih (Scraper.emailKey e :: seen)).mp hx
          exact ⟨List.mem_cons_of_mem _ this.1,
            fun hs => this.2 (List.mem_cons_of_mem _ hs)⟩
      · intro ⟨hx, hxs⟩
        by_cases hxe : x = Scraper.emailKey e
        · exact hxe ▸ List.mem_cons_self _ _
        · rcases List.mem_cons.mp hx with hx | hx
          · exact absurd hx hxe
          · refine List.mem_cons_of_mem _ ((ih (Scraper.emailKey e :: seen)).mpr ⟨hx, ?_⟩)
            intro hs
            rcases List.mem_cons.mp hs with hs | hs
            · exact hxe hs
            · exact hxs hs
    · rw [if_neg hc]
      rw [Bool.and_eq_true, Bool.not_eq_true'] at hc
      push_neg at hc
      rw [List.map_cons, List.filter_cons]
      by_cases hfac : Scraper.is_faculty_email (Scraper.emailKey e) = true
      · have hseen : Scraper.emailKey e ∈ seen := by
          rcases Bool.eq_false_or_eq_true (seen.contains (Scraper.emailKey e)) with h | h
          · exact List.elem_iff.mp h
          · exact absurd hfac (hc h)
        rw [if_pos hfac]
        rw [ih seen]
        constructor
        · intro ⟨hx, hxs⟩
          exact ⟨List.mem_cons_of_mem _ hx, hxs⟩
        · intro ⟨hx, hxs⟩
          rcases List.mem_cons.mp hx with hx | hx
          · exact absurd (hx ▸ hseen) hxs
          · exact ⟨hx, hxs⟩
      · rw [if_neg hfac]
        exact ih seen

/-- The de-duplication loop emits pairwise distinct keys, none of which lies
in the inherited seen set. -/
theorem dedup_filter_go_key_nodup :
    ∀ (l seen : List String),
      ((Scraper.dedup_filter_go seen l).map Scraper.emailKey).Nodup := by
  intro l
  induction l with
  | nil =>
    intro seen
    simp [Scraper.dedup_filter_go]
  | cons e rest ih =>
    intro seen
    simp only [Scraper.dedup_filter_go]
    by_cases hc : (!(seen.contains (Scraper.emailKey e))
        && Scraper.is_faculty_email (Scraper.emailKey e)) = true
    · rw [if_pos hc]
      rw [List.map_cons, List.nodup_cons]
      refine ⟨?_, ih (Scraper.emailKey e :: seen)⟩
      intro hmem
      have := (dedup_filter_go_key_mem _ rest (Scraper.emailKey e :: seen)).mp hmem
      exact this.2 (List.mem_cons_self _ _)
    · rw [if_neg hc]
      exact ih seen

end DedupLemmas

/-- Lower-casing an address splits around the at sign (toLower fixes it). -/
theorem lowerL_email_split (lp dom : List Char) :
    PyStr.lowerL (lp ++ '@' :: dom) = (PyStr.lowerL lp ++ ['@']) ++ PyStr.lowerL dom := by
  rw [lowerL_append]
  simp only [PyStr.lowerL, List.map_cons]
  rw [show Char.toLower '@' = '@' from by decide, ← List.append_cons]

/-- Whenever the publication lookup succeeds with a paper list, that list
holds at most 5 papers, and all citation counts are non-negative provided
every total present in the response is. -/
theorem papers_outcome_spec (key : Option String) (n e : String)
    (http : Scraper.HttpResult) (htot : Scraper.httpTotalsOk http = true) :
    ∀ ps total,
      Scraper.get_professor_papers_direct_search key n e http = .found ps total →
      ps.length ≤ 5 ∧ ∀ p ∈ ps, 0 ≤ p.cited_by := by
  intro ps total hfound
  cases key with
  | none => exact absurd hfound (by simp [Scraper.get_professor_papers_direct_search])
  | some k =>
    cases http with
    | timeout =>
      exact absurd hfound (by simp [Scraper.get_professor_papers_direct_search])
    | connection_error m =>
      exact absurd hfound (by simp [Scraper.get_professor_papers_direct_search])
    | request_exception m =>
      exact absurd hfound (by simp [Scraper.get_professor_papers_direct_search])
    | success s t body =>
      obtain ⟨ef, org⟩ := body
      by_cases hs : s ≠ 200
      · simp only [Scraper.get_professor_papers_direct_search] at hfound
        rw [if_pos hs] at hfound
        exact absurd hfound (by simp)
      · cases ef with
        | some er =>
          simp only [Scraper.get_professor_papers_direct_search] at hfound
          rw [if_neg hs] at hfound
          exact absurd hfound (by simp)
        | none =>
          cases org with
          | none =>
            simp only [Scraper.get_professor_papers_direct_search] at hfound
            rw [if_neg hs] at hfound
            exact absurd hfound (by simp)
          | some results =>
            cases results with
            | nil =>
              simp only [Scraper.get_professor_papers_direct_search] at hfound
              rw [if_neg hs] at hfound
              exact absurd hfound (by simp)
            | cons r rs =>
              simp only [Scraper.get_professor_papers_direct_search] at hfound
              rw [if_neg hs] at hfound
              injection hfound with h1 h2
              subst h1
              constructor
              · rw [List.length_take]
                exact min_le_left 5 _
              · intro p hp
                have hp2 := List.take_subset _ _ hp
                have hp3 : p ∈ (r :: rs).map Scraper.mkPaper :=
                  (List.perm_insertionSort _ _).mem_iff.mp hp2
                obtain ⟨r2, hr2, hpr⟩ := List.mem_map.mp hp3
                subst hpr
                simp only [Scraper.httpTotalsOk, Option.getD] at htot
                have hok := List.all_eq_true.mp htot r2 hr2
                simp only [Scraper.resultTotalsOk] at hok
                cases hc : r2.cited_by_total with
                | none => simp [Scraper.mkPaper, hc]
                | some tt =>
                  rw [hc] at hok
                  have := of_decide_eq_true hok
                  simpa [Scraper.mkPaper, hc] using this

/-! Claim theorems. -/

/-- C5: is_valid_professor_name accepts only when, after stripping a leading
title, at least 2 capitalized words remain, and it rejects any name whose
cleaned lower-cased form contains a denylisted generic phrase; in particular
Computer Science is rejected and Jane Smith is accepted. -/
theorem c5_name_validation :
    (∀ name : List Char,
        (Scraper.valid_professor_name_chars name = true →
          2 ≤ (PyStr.splitWs (PyStr.stripL (Scraper.stripLeadingTitle name))).countP
              Scraper.startsWithUpper) ∧
        (∀ t ∈ Scraper.generic_terms,
          PyStr.pyIn t (PyStr.lowerL (PyStr.stripL (Scraper.stripLeadingTitle name))) = true →
          Scraper.valid_professor_name_chars name = false)) ∧
    Scraper.is_valid_professor_name "Computer Science" = false ∧
    Scraper.is_valid_professor_name "Jane Smith" = true := by
  refine ⟨fun name => ⟨?_, ?_⟩, by decide, by decide⟩
  · intro h
    simp only [Scraper.valid_professor_name_chars] at h
    split at h
    case isTrue => exact absurd h (by simp)
    case isFalse h1 =>
      split at h
      case isTrue => exact absurd h (by simp)
      case isFalse h2 =>
        split at h
        case isTrue => exact absurd h (by simp)
        case isFalse h3 =>
          have hlen : 2 ≤ (PyStr.splitWs (PyStr.stripL (Scraper.stripLeadingTitle name))).length :=
            le_of_not_lt h2
          have hall : ∀ w ∈ (PyStr.splitWs (PyStr.stripL (Scraper.stripLeadingTitle name))).take 2,
              Scraper.startsWithUpper w = true := by
            intro w hw
            have hw2 := (List.all_eq_true.mp h) w hw
            rw [Bool.and_eq_true] at hw2
            obtain ⟨-, hnw⟩ := hw2
            cases w with
            | nil => simp [Scraper.isNameWord] at hnw
            | cons c cs =>
              simp only [Scraper.isNameWord, Bool.and_eq_true] at hnw
              simp [Scraper.startsWithUpper, hnw.1]
          have htk : ((PyStr.splitWs (PyStr.stripL (Scraper.stripLeadingTitle name))).take 2).length = 2 := by
            rw [List.length_take]
            omega
          calc 2 = ((PyStr.splitWs (PyStr.stripL (Scraper.stripLeadingTitle name))).take 2).countP
                    Scraper.startsWithUpper := by
                  rw [List.countP_eq_length.mpr hall, htk]
            _ ≤ _ := (List.take_sublist 2 _).countP_le _
  · intro t ht hin
    have hany : Scraper.generic_terms.any
        (fun t2 => PyStr.pyIn t2 (PyStr.lowerL (PyStr.stripL (Scraper.stripLeadingTitle name)))) = true :=
      List.any_eq_true.mpr ⟨t, ht, hin⟩
    simp only [Scraper.valid_professor_name_chars, hany]
    split
    · rfl
    · split
      · rfl
      · rfl

/-- Witness for C5: the validator accepts Dr. Jane Smith, and the theorem
yields at least two capitalized words in the stripped name. -/
theorem c5_name_validation_witness :
    2 ≤ (PyStr.splitWs (PyStr.stripL (Scraper.stripLeadingTitle "Dr. Jane Smith".toList))).countP
        Scraper.startsWithUpper :=
  (c5_name_validation.1 "Dr. Jane Smith".toList).1 (by decide)

/-- C6: every address whose lower-cased local part is one of the denylisted
administrative names is rejected by is_faculty_email; in particular
info at school.edu is rejected. -/
theorem c6_admin_email_rejected :
    (∀ localPart domain : List Char,
        (PyStr.lowerL localPart ++ ['@']) ∈ Scraper.skip_patterns →
        Scraper.faculty_email_chars (localPart ++ '@' :: domain) = false) ∧
    Scraper.is_faculty_email "info@school.edu" = false := by
  constructor
  · intro lp dom hmem
    have hpref : (PyStr.lowerL lp ++ ['@']).isPrefixOf
        (PyStr.lowerL (lp ++ '@' :: dom)) = true := by
      rw [lowerL_email_split]
      exact isPrefixOf_append_self _ _
    have hany : Scraper.skip_patterns.any
        (fun p => p.isPrefixOf (PyStr.lowerL (lp ++ '@' :: dom))) = true :=
      List.any_eq_true.mpr ⟨_, hmem, hpref⟩
    simp only [Scraper.faculty_email_chars, hany]
    simp
  · decide

/-- Witness for C6: info at school.edu, written as local part plus domain,
is rejected. -/
theorem c6_admin_email_rejected_witness :
    Scraper.faculty_email_chars ("info".toList ++ '@' :: "school.edu".toList) = false :=
  c6_admin_email_rejected.1 "info".toList "school.edu".toList (by decide)

/-- C10: the generic-keyword rejection is a substring test over the whole
lower-cased address, so a denylisted keyword inside the domain rejects the
address regardless of the local part. -/
theorem c10_generic_keyword_domain :
    ∀ localPart domain k : List Char, k ∈ Scraper.generic_keywords →
      PyStr.pyIn k (PyStr.lowerL domain) = true →
      Scraper.faculty_email_chars (localPart ++ '@' :: domain) = false := by
  intro lp dom k hk hin
  have hfull : PyStr.pyIn k (PyStr.lowerL (lp ++ '@' :: dom)) = true := by
    rw [lowerL_email_split]
    exact pyIn_append_left k _ hin _
  have hany : Scraper.generic_keywords.any
      (fun k2 => PyStr.pyIn k2 (PyStr.lowerL (lp ++ '@' :: dom))) = true :=
    List.any_eq_true.mpr ⟨k, hk, hfull⟩
  simp only [Scraper.faculty_email_chars, hany]
  split
  · rfl
  · simp

/-- Witness for C10: jane at lists.school.edu is rejected because the domain
contains the keyword list. -/
theorem c10_generic_keyword_domain_witness :
    Scraper.faculty_email_chars ("jane".toList ++ '@' :: "lists.school.edu".toList) = false :=
  c10_generic_keyword_domain "jane".toList "lists.school.edu".toList "list".toList
    (by decide) (by decide)

/-- C9: the email extraction and de-duplication step is a deterministic
function of the harvested page content: two runs agree as sets of
lower-cased stripped emails, the de-duplicated keys are pairwise distinct,
and the resulting key set is exactly the set of harvested keys passing the
faculty filter. -/
theorem c9_extraction_idempotent :
    ∀ (page_emails mailto_emails : List String) (obfuscated : List (String × String)),
      (∀ x, x ∈ (Scraper.find_all_faculty_emails page_emails mailto_emails obfuscated).map
              Scraper.emailKey ↔
            x ∈ (Scraper.find_all_faculty_emails page_emails mailto_emails obfuscated).map
              Scraper.emailKey) ∧
      ((Scraper.find_all_faculty_emails page_emails mailto_emails obfuscated).map
          Scraper.emailKey).Nodup ∧
      (∀ x, x ∈ (Scraper.find_all_faculty_emails page_emails mailto_emails obfuscated).map
              Scraper.emailKey ↔
            x ∈ ((page_emails ++ mailto_emails
                ++ obfuscated.map (fun p => p.1 ++ "@" ++ p.2 ++ ".edu")).map
                Scraper.emailKey).filter Scraper.is_faculty_email) := by
  intro pe me ob
  refine ⟨fun x => Iff.rfl, dedup_filter_go_key_nodup _ [], fun x => ?_⟩
  exact (dedup_filter_go_key_mem x _ []).trans (by simp)

/-- C8: the link-analysis fallback runs only when direct extraction yields
zero candidates; the prompt sample holds at most the first 50 collected
links; at most 10 profile URLs are returned; and every returned URL is
absent from the visited set at selection time. -/
theorem c8_link_fallback :
    (∀ direct fallback : List Scraper.FacultyInfo, direct ≠ [] →
        Scraper.scrape_select direct fallback = direct) ∧
    (∀ (visited : List String) (links : List Scraper.RawLink),
        (Scraper.links_sample visited links).length ≤ 50) ∧
    (∀ (visited : List String) (links : List Scraper.RawLink)
        (aiParse : Option (List String)),
        (Scraper.find_relevant_faculty_links visited links aiParse).length ≤ 10) ∧
    (∀ (visited : List String) (links : List Scraper.RawLink)
        (aiParse : Option (List String)) (u : String),
        u ∈ Scraper.find_relevant_faculty_links visited links aiParse →
        visited.contains u = false) := by
  refine ⟨?_, ?_, ?_, ?_⟩
  · intro d f hd
    unfold Scraper.scrape_select
    rw [if_neg (fun h => hd (List.length_eq_zero.mp h))]
  · intro v ls
    simp only [Scraper.links_sample, List.length_take]
    exact min_le_left 50 _
  · intro v ls ai
    cases ai with
    | none =>
      simp only [Scraper.find_relevant_faculty_links]
      split <;> simp
    | some urls =>
      simp only [Scraper.find_relevant_faculty_links]
      split
      · simp
      · simp only [Scraper.LINK_ANALYSIS_LIMIT, List.length_take]
        exact min_le_left 10 _
  · intro v ls ai u hu
    cases ai with
    | none =>
      simp only [Scraper.find_relevant_faculty_links] at hu
      split at hu <;> simp at hu
    | some urls =>
      simp only [Scraper.find_relevant_faculty_links] at hu
      split at hu
      · simp at hu
      · have hu2 := List.take_subset _ _ hu
        have hcond := (List.mem_filter.mp hu2).2
        rw [Bool.and_eq_true] at hcond
        have hnot := hcond.2
        rw [Bool.not_eq_true'] at hnot
        exact hnot

/-- Witness for C8: a non-empty direct result suppresses the fallback, and a
concrete returned URL is unvisited. -/
theorem c8_link_fallback_witness :
    Scraper.scrape_select [Fixtures.fi8] [] = [Fixtures.fi8] ∧
    (["http://a"] : List String).contains "http://b" = false :=
  ⟨c8_link_fallback.1 [Fixtures.fi8] [] (by decide),
   c8_link_fallback.2.2.2 ["http://a"] [Fixtures.link8] (some ["http://b"]) "http://b"
     (by decide)⟩

/-- C4: every error condition of the publication lookup (timeout, connection
failure, request exception, non-200 status, API error field, empty result
list) yields a tagged error payload; a response with zero organic results
yields the payload No papers found for the professor, and a downstream
record built from an error payload has an empty top_papers list. -/
theorem c4_error_payloads :
    (∀ k n e : String,
        Scraper.get_professor_papers_direct_search (some k) n e .timeout =
          .error "Request timed out") ∧
    (∀ k n e m : String,
        Scraper.get_professor_papers_direct_search (some k) n e (.connection_error m) =
          .error ("Request failed: " ++ m)) ∧
    (∀ k n e m : String,
        Scraper.get_professor_papers_direct_search (some k) n e (.request_exception m) =
          .error ("Request failed: " ++ m)) ∧
    (∀ (k n e t : String) (s : Nat) (body : Scraper.ApiResponse), s ≠ 200 →
        Scraper.get_professor_papers_direct_search (some k) n e (.success s t body) =
          .error ("HTTP " ++ toString s ++ ": " ++ t.take 200)) ∧
    (∀ (k n e t err : String) (org : Option (List Scraper.OrganicResult)),
        Scraper.get_professor_papers_direct_search (some k) n e
            (.success 200 t { error_field := some err, organic_results := org }) =
          .error ("API Error: " ++ err)) ∧
    (∀ k n e t : String,
        Scraper.get_professor_papers_direct_search (some k) n e
            (.success 200 t { error_field := none, organic_results := none }) =
          .error ("No papers found for " ++ n) ∧
        Scraper.get_professor_papers_direct_search (some k) n e
            (.success 200 t { error_field := none, organic_results := some [] }) =
          .error ("No papers found for " ++ n)) ∧
    (∀ (fi : Scraper.FacultyInfo) (page_url m : String),
        (Scraper.build_professor_record fi page_url (.error m)).top_papers = [] ∧
        (Scraper.build_professor_record fi page_url (.error m)).papers_error = some m) := by
  refine ⟨fun k n e => rfl, fun k n e m => rfl, fun k n e m => rfl, ?_, ?_, ?_, ?_⟩
  · intro k n e t s body hs
    simp only [Scraper.get_professor_papers_direct_search]
    rw [if_pos hs]
  · intro k n e t err org
    simp only [Scraper.get_professor_papers_direct_search]
    rw [if_neg (fun h : (200 : Nat) ≠ 200 => h rfl)]
  · intro k n e t
    constructor
    · simp only [Scraper.get_professor_papers_direct_search]
      rw [if_neg (fun h : (200 : Nat) ≠ 200 => h rfl)]
    · simp only [Scraper.get_professor_papers_direct_search]
      rw [if_neg (fun h : (200 : Nat) ≠ 200 => h rfl)]
  · intro fi u m
    exact ⟨rfl, rfl⟩

/-- Witness for C4: a 404 response yields the tagged HTTP error payload, and
a response with zero organic results yields the no-papers payload whose
downstream record has no top papers. -/
theorem c4_error_payloads_witness :
    Scraper.get_professor_papers_direct_search (some "k") "Jane Smith" "j@x.edu"
        (.success 404 "not found" { error_field := none, organic_results := none }) =
      .error ("HTTP " ++ toString (404 : Nat) ++ ": " ++ ("not found" : String).take 200) ∧
    Scraper.get_professor_papers_direct_search (some "k") "Jane Smith" "j@x.edu"
        (.success 200 "" { error_field := none, organic_results := some [] }) =
      .error ("No papers found for " ++ "Jane Smith") ∧
    (Scraper.build_professor_record Fixtures.fi8 "u" (.error "No papers found for Jane Smith")).top_papers = [] :=
  ⟨c4_error_payloads.2.2.2.1 "k" "Jane Smith" "j@x.edu" "not found" 404
      { error_field := none, organic_results := none } (by decide),
   (c4_error_payloads.2.2.2.2.2.1 "k" "Jane Smith" "j@x.edu" "").2,
   (c4_error_payloads.2.2.2.2.2.2 Fixtures.fi8 "u" "No papers found for Jane Smith").1⟩

/-- C2 counterexample: the claim that the name-pairing assistant recovers
from any JSON parse failure by extracting and parsing the first bracketed
substring is false: on the response oops [x], whose bracketed substring
parses to a valid entry, the assistant returns the empty list instead of the
recovered candidates. -/
theorem c2_parse_recovery_counterexample :
    ¬ (∀ (jsonParse : String → Option (List Scraper.AiPairEntry))
         (response : String) (emails : List String),
          jsonParse response = none →
          Scraper.extract_email_name_pairs_with_ai jsonParse response emails =
            (match Scraper.bracketSearch response.toList with
             | some seg =>
               match jsonParse (String.mk seg) with
               | some result => Scraper.filter_ai_entries result emails
               | none => []
             | none => [])) := by
  intro hclaim
  have h := hclaim Fixtures.parse0 "oops [x]" ["a@b.edu"] (by decide)
  exact absurd h (by decide)

/-- C2 amended: the in-pipeline name-pairing assistant returns the empty
list immediately on any JSON parse failure, with no bracket extraction; the
separate enhanced extraction helper attempts bracket extraction exactly once,
but only for responses that already start with an opening bracket, and
returns the empty list without any extraction attempt otherwise. -/
theorem c2_parse_recovery_amended :
    (∀ (jsonParse : String → Option (List Scraper.AiPairEntry))
        (response : String) (emails : List String),
        jsonParse response = none →
        Scraper.extract_email_name_pairs_with_ai jsonParse response emails = []) ∧
    (∀ (α : Type) (jsonParse : String → Option (List α)) (content : String),
        ((PyStr.stripL content.toList).head? = some '[' ∨
         (PyStr.stripL content.toList).head? = some '\x7b') →
        jsonParse (String.mk (PyStr.stripL content.toList)) = none →
        Scraper.extract_faculty_from_emails_with_ai jsonParse content =
          (match Scraper.bracketSearch (PyStr.stripL content.toList) with
           | some seg =>
             match jsonParse (String.mk seg) with
             | some result => result
             | none => []
           | none => [])) ∧
    (∀ (α : Type) (jsonParse : String → Option (List α)) (content : String),
        PyStr.stripL content.toList ≠ [] →
        ¬ ((PyStr.stripL content.toList).head? = some '[' ∨
           (PyStr.stripL content.toList).head? = some '\x7b') →
        Scraper.extract_faculty_from_emails_with_ai jsonParse content = []) := by
  refine ⟨?_, ?_, ?_⟩
  · intro jp resp emails hp
    simp only [Scraper.extract_email_name_pairs_with_ai, hp]
  · intro α jp content hhead hp
    simp only [Scraper.extract_faculty_from_emails_with_ai]
    have hne : ¬ ((PyStr.stripL content.toList).isEmpty = true) := by
      intro he
      rw [List.isEmpty_iff] at he
      rcases hhead with h | h <;> (rw [he] at h; exact absurd h (by decide))
    rw [if_neg hne]
    have hb : (!((PyStr.stripL content.toList).head? == some '[' ||
        (PyStr.stripL content.toList).head? == some '\x7b')) = false := by
      rcases hhead with h | h <;> (rw [h]; decide)
    have hcond : ¬ ((!((PyStr.stripL content.toList).head? == some '[' ||
        (PyStr.stripL content.toList).head? == some '\x7b')) = true) := by
      rw [hb]
      decide
    rw [if_neg hcond, hp]
  · intro α jp content hne hhead
    simp only [Scraper.extract_faculty_from_emails_with_ai]
    have hne2 : ¬ ((PyStr.stripL content.toList).isEmpty = true) := by
      intro he
      rw [List.isEmpty_iff] at he
      exact hne he
    rw [if_neg hne2]
    have h1 : ((PyStr.stripL content.toList).head? == some '[') = false :=
      beq_eq_false_iff_ne.mpr (fun h => hhead (Or.inl h))
    have h2 : ((PyStr.stripL content.toList).head? == some '\x7b') = false :=
      beq_eq_false_iff_ne.mpr (fun h => hhead (Or.inr h))
    have hb : (!((PyStr.stripL content.toList).head? == some '[' ||
        (PyStr.stripL content.toList).head? == some '\x7b')) = true := by
      rw [h1, h2]
      decide
    rw [if_pos hb]

/-- Witness for C2: a parse failure on a plain response makes the pipeline
assistant return the empty list. -/
theorem c2_parse_recovery_witness :
    Scraper.extract_email_name_pairs_with_ai Fixtures.parse0 "oops" ["a@b.edu"] = [] :=
  c2_parse_recovery_amended.1 Fixtures.parse0 "oops" ["a@b.edu"] (by decide)

/-- C1: the publication-lookup ranking sorts papers descending by citation
count stably (a permutation, pairwise descending, and the sublist at every
fixed count unchanged), returns the top K, and reassigns contiguous 1-based
ranks after sorting; papers with citation counts 5, 50, 10 come back in
order 50, 10, 5 with ranks 1, 2, 3. -/
theorem c1_publication_ranking :
    (∀ results : List Scraper.OrganicResult,
        (ApiTest.sortByCitedDesc (ApiTest.extractPapers results)).Perm
          (ApiTest.extractPapers results) ∧
        List.Pairwise (fun a b : ApiTest.RankedPaper => b.cited_by ≤ a.cited_by)
          (ApiTest.sortByCitedDesc (ApiTest.extractPapers results)) ∧
        (∀ c : Int,
          (ApiTest.sortByCitedDesc (ApiTest.extractPapers results)).filter
              (fun p => decide (p.cited_by = c)) =
            (ApiTest.extractPapers results).filter (fun p => decide (p.cited_by = c))) ∧
        (ApiTest.rank_papers results).map ApiTest.eraseRank =
          ((ApiTest.sortByCitedDesc (ApiTest.extractPapers results)).take 3).map
            ApiTest.eraseRank ∧
        (ApiTest.rank_papers results).map ApiTest.RankedPaper.rank =
          List.range' 1 (ApiTest.rank_papers results).length) ∧
    (ApiTest.rank_papers ApiTest.exampleResults).map (fun p => (p.cited_by, p.rank)) =
      [((50 : Int), 1), (10, 2), (5, 3)] := by
  constructor
  · intro results
    refine ⟨List.perm_insertionSort _ _,
      pairwise_key_insertionSort ApiTest.byCitedR ApiTest.RankedPaper.cited_by
        (fun a b => Iff.rfl) _,
      fun c => filter_stable_insertionSort ApiTest.byCitedR ApiTest.RankedPaper.cited_by
        (fun a b => Iff.rfl) _ c (fun y => by simp) _,
      ?_, ?_⟩
    · exact map_mapIdx_indep _ _ _ _ (fun i a => rfl)
    · have h1 : (ApiTest.rank_papers results).length =
          ((ApiTest.sortByCitedDesc (ApiTest.extractPapers results)).take 3).length :=
        List.length_mapIdx
      rw [h1]
      exact mapIdx_map_ranks _ 1 _ _ (fun i a => rfl)
  · decide

/-- C7: the best-paper selector returns a paper of maximal total score,
resolving ties in favour of the earliest paper of the original order; with
all scores equal this degenerates to the first paper. -/
theorem c7_select_best_paper :
    ∀ papers : List Scraper.Paper, papers ≠ [] →
      ∃ p, DraftGen.select_best_paper papers = some p ∧ p ∈ papers ∧
        (∀ q ∈ papers, DraftGen.total_score q ≤ DraftGen.total_score p) ∧
        (papers.filter
          (fun q => decide (DraftGen.total_score q = DraftGen.total_score p))).head? =
          some p := by
  intro papers hne
  obtain ⟨p, t, hsort, hmax⟩ := insertionSort_head_max DraftGen.byScore
    DraftGen.total_score (fun a b => Iff.rfl) papers hne
  refine ⟨p, ?_, ?_, hmax, ?_⟩
  · cases papers with
    | nil => exact absurd rfl hne
    | cons x xs =>
      simp only [DraftGen.select_best_paper]
      rw [hsort]
      rfl
  · have hp : p ∈ List.insertionSort DraftGen.byScore papers := by
      rw [hsort]
      exact List.mem_cons_self _ _
    exact (List.perm_insertionSort _ _).mem_iff.mp hp
  · have hfilter := filter_stable_insertionSort DraftGen.byScore DraftGen.total_score
      (fun a b => Iff.rfl)
      (fun q => decide (DraftGen.total_score q = DraftGen.total_score p))
      (DraftGen.total_score p) (fun y => by simp) papers
    rw [← hfilter, hsort, List.filter_cons, if_pos (by simp)]
    rfl

/-- C3: every ProfessorRecord built from a validated pairing candidate has a
non-empty name and email, a top_papers list of length at most 5, and, when
the response totals are non-negative, non-negative citation counts that
default to 0 whenever the source field is absent. -/
theorem c3_record_invariants :
    (∀ (jsonParse : String → Option (List Scraper.AiPairEntry)) (response : String)
        (emails : List String) (key : Option String) (page_url : String)
        (http : Scraper.HttpResult) (fi : Scraper.FacultyInfo),
        fi ∈ Scraper.extract_email_name_pairs_with_ai jsonParse response emails →
        Scraper.httpTotalsOk http = true →
        (Scraper.build_professor_record fi page_url
            (Scraper.get_professor_papers_direct_search key fi.name fi.email http)).name
          ≠ "" ∧
        (Scraper.build_professor_record fi page_url
            (Scraper.get_professor_papers_direct_search key fi.name fi.email http)).email
          ≠ "" ∧
        (Scraper.build_professor_record fi page_url
            (Scraper.get_professor_papers_direct_search key fi.name fi.email
              http)).top_papers.length ≤ 5 ∧
        (∀ p ∈ (Scraper.build_professor_record fi page_url
            (Scraper.get_professor_papers_direct_search key fi.name fi.email
              http)).top_papers, 0 ≤ p.cited_by)) ∧
    (∀ r : Scraper.OrganicResult, r.cited_by_total = none →
        (Scraper.mkPaper r).cited_by = 0) := by
  constructor
  · intro jp resp emails key url http fi hfi htot
    have hne : fi.name ≠ "" ∧ fi.email ≠ "" := by
      unfold Scraper.extract_email_name_pairs_with_ai at hfi
      cases hjp : jp resp with
      | none =>
        rw [hjp] at hfi
        exact absurd hfi (by simp)
      | some entries =>
        rw [hjp] at hfi
        unfold Scraper.filter_ai_entries at hfi
        rw [List.mem_filterMap] at hfi
        obtain ⟨entry, -, hsome⟩ := hfi
        simp only [] at hsome
        by_cases hcond : (pyStripStr (entry.email.getD "") != ""
            && pyStripStr (entry.name.getD "") != ""
            && Scraper.is_valid_professor_name (pyStripStr (entry.name.getD ""))
            && emails.contains (pyStripStr (entry.email.getD ""))) = true
        · rw [if_pos hcond] at hsome
          simp only [Bool.and_eq_true] at hcond
          obtain ⟨⟨⟨hemail, hname⟩, -⟩, -⟩ := hcond
          rw [Option.some_inj] at hsome
          rw [← hsome]
          exact ⟨bne_iff_ne.mp hname, bne_iff_ne.mp hemail⟩
        · rw [if_neg hcond] at hsome
          exact absurd hsome (by simp)
    have htp : (Scraper.build_professor_record fi url
          (Scraper.get_professor_papers_direct_search key fi.name fi.email
            http)).top_papers.length ≤ 5 ∧
        ∀ p ∈ (Scraper.build_professor_record fi url
          (Scraper.get_professor_papers_direct_search key fi.name fi.email
            http)).top_papers, 0 ≤ p.cited_by := by
      cases houtcome : Scraper.get_professor_papers_direct_search key fi.name fi.email http with
      | error m =>
        constructor
        · simp [Scraper.build_professor_record]
        · intro p hp
          simp [Scraper.build_professor_record] at hp
      | found ps total =>
        have hspec := papers_outcome_spec key fi.name fi.email http htot ps total houtcome
        constructor
        · simpa [Scraper.build_professor_record] using hspec.1
        · intro p hp
          exact hspec.2 p (by simpa [Scraper.build_professor_record] using hp)
    exact ⟨hne.1, hne.2, htp.1, htp.2⟩
  · intro r hr
    simp [Scraper.mkPaper, hr]

/-- Witness for C3: the record of the validated candidate Jane Smith built
from a successful response with one total-free result satisfies every
invariant. -/
theorem c3_record_invariants_witness :
    (Scraper.build_professor_record Fixtures.fi3 "u"
        (Scraper.get_professor_papers_direct_search (some "k") Fixtures.fi3.name
          Fixtures.fi3.email Fixtures.http3)).name ≠ "" ∧
    (Scraper.build_professor_record Fixtures.fi3 "u"
        (Scraper.get_professor_papers_direct_search (some "k") Fixtures.fi3.name
          Fixtures.fi3.email Fixtures.http3)).email ≠ "" ∧
    (Scraper.build_professor_record Fixtures.fi3 "u"
        (Scraper.get_professor_papers_direct_search (some "k") Fixtures.fi3.name
          Fixtures.fi3.email Fixtures.http3)).top_papers.length ≤ 5 ∧
    (∀ p ∈ (Scraper.build_professor_record Fixtures.fi3 "u"
        (Scraper.get_professor_papers_direct_search (some "k") Fixtures.fi3.name
          Fixtures.fi3.email Fixtures.http3)).top_papers, 0 ≤ p.cited_by) :=
  c3_record_invariants.1 Fixtures.parse3 "resp" ["jane.smith@uni.edu"] (some "k") "u"
    Fixtures.http3 Fixtures.fi3 (by decide) (by decide)

/-- Witness for C7: on a two-paper list whose first paper scores higher, the
selector returns the first paper together with the maximality and
earliest-tie properties. -/
theorem c7_select_best_paper_witness :
    ∃ p, DraftGen.select_best_paper [Fixtures.paperA, Fixtures.paperB] = some p ∧
      p ∈ [Fixtures.paperA, Fixtures.paperB] ∧
      (∀ q ∈ [Fixtures.paperA, Fixtures.paperB],
        DraftGen.total_score q ≤ DraftGen.total_score p) ∧
      ([Fixtures.paperA, Fixtures.paperB].filter
        (fun q => decide (DraftGen.total_score q = DraftGen.total_score p))).head? =
        some p :=
  c7_select_best_paper [Fixtures.paperA, Fixtures.paperB] (by decide)



